import Mathlib

/-!
Verification of the SecureAsk query-orchestration pipeline.

This file shallowly embeds the components of the SecureAsk repository that the
verified properties are about:

* `src/core/models.py`              — data model (`SourceType`, `QueryStatus`,
  `Citation`, `QueryResult`, `QueryResponse`, `ExternalAPIResponse`,
  `ProcessingContext`);
* `src/core/graphrag_engine.py`     — the orchestrator (`process_query`,
  `_fetch_external_data`, `_extract_company_ticker`, `_extract_search_terms`,
  `_run_graphrag_reasoning`, `_extract_relevant_snippet`);
* `src/main.py`                     — the `create_query` endpoint (query-result
  cache fingerprint, hit/miss logic);
* `src/db/redis_client.py`          — the cache store adapter (`with_retry`,
  `get`, `set`);
* `src/apps/api/src/connectors/tiktok_connector.py` — the video connector
  (`search_content`, `_wait_for_results`, `_format_tiktok_results`,
  `_get_fallback_data`).

Conventions of the embedding:

* Python strings are Lean `String`s.  Because the built-in `String` operations
  of this Lean version do not reduce in the kernel, the Python string
  operations used by the code (`lower`, `in`, `split`, `join`, `replace`,
  slicing, `+`) are given as executable list-based definitions (`pyLower`,
  `strContainsSub`, `pySplit`, `pyJoin`, `pyReplace`, `pyTake`, `pyAppend`)
  with the same semantics on ASCII text.
* Python `dict.get(k, default)` fields of JSON-ish records are modelled as
  `Option` fields read with `Option.getD`.
* `datetime` values are opaque timestamps (`Nat` for the orchestrator clock,
  rendered strings where the code only formats them); hash functions whose
  output content is irrelevant to control flow (Python's salted `hash`,
  `md5`) are either oracle parameters or injective stand-ins that keep
  exactly the determinism the code relies on.
* `async` calls that can raise are modelled as `Except String` values; the
  outcome of an awaited coroutine is supplied by an oracle function so that
  theorems quantify over every possible success/failure pattern.
* Floats appearing only as literal confidence priors (0.95 / 0.78 / 0.65)
  are represented as `Nat` hundredths (95 / 78 / 65).
-/

/-! ## Python string operations (executable, ASCII-faithful) -/

/-- `str.lower()`. -/
def pyLower (s : String) : String := ⟨s.data.map Char.toLower⟩

/-- Boolean prefix test on character lists. -/
def prefixCheck : List Char → List Char → Bool
  | [], _ => true
  | _ :: _, [] => false
  | a :: as, b :: bs => a = b && prefixCheck as bs

/-- Boolean infix (substring) test on character lists. -/
def infixCheck (needle : List Char) : List Char → Bool
  | [] => prefixCheck needle []
  | c :: rest => prefixCheck needle (c :: rest) || infixCheck needle rest

/-- Python `needle in hay` on strings. -/
def strContainsSub (hay needle : String) : Bool := infixCheck needle.data hay.data

/-- Worker for `pySplit`: scans the text left to right; `skip` counts
separator characters still to be consumed after a match (so the recursion is
structural on the text). -/
def splitSkip (sep : List Char) : List Char → Nat → List Char → List (List Char)
  | [], _, cur => [cur.reverse]
  | _ :: rest, skip + 1, cur => splitSkip sep rest skip cur
  | c :: rest, 0, cur =>
    if prefixCheck sep (c :: rest) then
      cur.reverse :: splitSkip sep rest (sep.length - 1) []
    else splitSkip sep rest 0 (c :: cur)

/-- Python `s.split(sep)` for a non-empty literal separator (the only form the
code uses); an empty separator returns the string unsplit. -/
def pySplit (s : String) (sep : String) : List String :=
  match sep.data with
  | [] => [s]
  | c :: cs => (splitSkip (c :: cs) s.data 0 []).map (fun l => ⟨l⟩)

/-- Worker for `pyJoin`. -/
def joinSep (sep : List Char) : List (List Char) → List Char
  | [] => []
  | [l] => l
  | l :: rest => l ++ sep ++ joinSep sep rest

/-- Python `sep.join(parts)`. -/
def pyJoin (sep : String) (parts : List String) : String :=
  ⟨joinSep sep.data (parts.map (fun p => p.data))⟩

/-- Python `s.replace(old, new)` (for non-empty `old`), via
`new.join(s.split(old))`. -/
def pyReplace (s old new : String) : String := pyJoin new (pySplit s old)

/-- Python slice `s[:n]`. -/
def pyTake (s : String) (n : Nat) : String := ⟨s.data.take n⟩

/-- Python string concatenation. -/
def pyAppend (a b : String) : String := ⟨a.data ++ b.data⟩

/-- Character order by code point. -/
def charLt (a b : Char) : Bool := a.toNat < b.toNat

/-- Lexicographic `≤` on character lists (Python string comparison). -/
def charListLe : List Char → List Char → Bool
  | [], _ => true
  | _ :: _, [] => false
  | a :: as, b :: bs =>
    if charLt a b then true else if charLt b a then false else charListLe as bs

/-- Python `a <= b` on strings. -/
def pyStrLe (a b : String) : Bool := charListLe a.data b.data

theorem pyTake_length (s : String) (n : Nat) : (pyTake s n).length ≤ n := by
  show (s.data.take n).length ≤ n
  simp

theorem pyAppend_length (a b : String) :
    (pyAppend a b).length = a.length + b.length := by
  show (a.data ++ b.data).length = a.data.length + b.data.length
  exact List.length_append a.data b.data

/-- Boolean equality from a truth-value equivalence. -/
theorem bool_eq_of_iff {a b : Bool} (h : a = true ↔ b = true) : a = b := by
  cases a <;> cases b <;> simp_all

/-! ## Data model — `src/core/models.py` -/

/-- `SourceType(str, Enum)`: `SEC = "sec"`, `REDDIT = "reddit"`,
`TIKTOK = "tiktok"`. -/
inductive SourceType
  | sec
  | reddit
  | tiktok
deriving DecidableEq, Repr

/-- The `.value` string of a `SourceType` member. -/
def SourceType.value : SourceType → String
  | .sec => "sec"
  | .reddit => "reddit"
  | .tiktok => "tiktok"

/-- `QueryStatus(str, Enum)`. -/
inductive QueryStatus
  | pending
  | processing
  | completed
  | failed
deriving DecidableEq, Repr

/-- One JSON-ish record returned by a connector, as consumed by
`_run_graphrag_reasoning` (dict entries read with `.get(key, default)` are
`Option` fields). -/
structure SourceRecord where
  title : Option String := none
  content : Option String := none
  url : Option String := none
  cik : Option String := none
  accession : Option String := none
deriving DecidableEq, Repr

/-- `models.Citation`; `confidence` is a float in the source, represented
here in hundredths (the code only uses the literals 0.95 / 0.78 / 0.65). -/
structure Citation where
  node_id : String
  source : SourceType
  url : String
  snippet : String
  confidence : Nat
deriving DecidableEq, Repr

/-- `models.QueryResult` (`processing_time` in milliseconds). -/
structure QueryResult where
  answer : Option String
  citations : List Citation
  graph_path : List String
  processing_time : Nat
deriving DecidableEq, Repr

/-- `models.QueryResponse`; `datetime` fields are opaque `Nat` timestamps. -/
structure QueryResponse where
  query_id : String
  question : String
  status : QueryStatus
  result : Option QueryResult
  created_at : Nat
  completed_at : Option Nat
deriving DecidableEq, Repr

/-- `models.ExternalAPIResponse` (the `metadata` dict is only written by the
code paths under verification, never read, and is omitted). -/
structure ExternalAPIResponse where
  source : SourceType
  data : List SourceRecord
  cached : Bool := false
deriving DecidableEq, Repr

/-- `models.ProcessingContext` (`start_time` is the opaque
`datetime.utcnow()` value taken at construction). -/
structure ProcessingContext where
  user_id : String
  query_id : String
  question : String
  max_hops : Nat
  sources : List SourceType
  start_time : Nat
deriving DecidableEq, Repr

/-! ## Relevance snippet extractor —
`GraphRAGEngine._extract_relevant_snippet` (graphrag_engine.py:493-544) -/

/-- The fixed `important_terms` vocabulary. -/
def importantTerms : List String :=
  ["climate", "risk", "esg", "disclosure", "apple", "tesla",
   "supply chain", "regulatory", "environmental", "social",
   "governance", "10-k", "10k", "2024", "2023", "carbon",
   "emissions", "sustainability"]

/-- The greedy accumulation loop: keep adding sentences (in score order)
while the running character total stays within `maxLength`; a failing
sentence stops the loop (`break`). -/
def greedyParts (maxLength : Nat) : List (Nat × String) → Nat → List String
  | [], _ => []
  | (_, s) :: rest, cur =>
    if cur + s.length ≤ maxLength then s :: greedyParts maxLength rest (cur + s.length)
    else []

/-- Stable insertion of a scored sentence into a descending-by-score list:
an element is placed before the first element of strictly smaller score and
after all elements of greater-or-equal score. -/
def insertByScoreDesc (p : Nat × String) : List (Nat × String) → List (Nat × String)
  | [] => [p]
  | q :: rest => if q.1 ≤ p.1 then p :: q :: rest else q :: insertByScoreDesc p rest

/-- Stable descending sort by score: the model of Python's
`list.sort(key=lambda x: x[0], reverse=True)` (Timsort is stable and
`reverse=True` preserves the original order of equal keys, as does this
insertion sort). -/
def sortByScoreDesc : List (Nat × String) → List (Nat × String)
  | [] => []
  | p :: rest => insertByScoreDesc p (sortByScoreDesc rest)

/-- `GraphRAGEngine._extract_relevant_snippet(content, question, max_length)`. -/
def extractRelevantSnippet (content question : String) (maxLength : Nat) : String :=
  if content = "" then "No content available"
  else
    let questionLower := pyLower question
    let keywords := importantTerms.filter (fun t => strContainsSub questionLower t)
    let sentences := pySplit content ". "
    let scored := sentences.map (fun s =>
      ((keywords.filter (fun k => strContainsSub (pyLower s) k)).length, s))
    let relevantSentences := scored.filter (fun p => 0 < p.1)
    let sortedSentences := sortByScoreDesc relevantSentences
    let snippetParts := greedyParts maxLength sortedSentences 0
    if snippetParts ≠ [] then
      let snippet := pyJoin ". " snippetParts
      if maxLength < snippet.length then pyAppend (pyTake snippet maxLength) "..."
      else snippet
    else
      if maxLength < content.length then pyAppend (pyTake content maxLength) "..."
      else content

/-- Length of the ellipsis suffix appended on truncation. -/
theorem ellipsis_length : ("..." : String).length = 3 := rfl

/-! ## Query-intent extraction —
`_extract_company_ticker` (graphrag_engine.py:201-221) and
`_extract_search_terms` (graphrag_engine.py:223-229) -/

/-- Python regex `\w` on ASCII text: `[a-zA-Z0-9_]`. -/
def isWordChar (c : Char) : Bool := c.isAlphanum || c = '_'

/-- Worker for `wordTokens`: accumulates the current run of word characters
(reversed) and emits it at each boundary. -/
def wordTokensAux : List Char → List Char → List String
  | [], cur => if cur.isEmpty then [] else [⟨cur.reverse⟩]
  | c :: rest, cur =>
    if isWordChar c then wordTokensAux rest (c :: cur)
    else if cur.isEmpty then wordTokensAux rest []
    else (⟨cur.reverse⟩ : String) :: wordTokensAux rest []

/-- The maximal word-character runs of a string: `re.findall(r'\b\w+\b', s)`. -/
def wordTokens (s : String) : List String := wordTokensAux s.data []

/-- The `ticker_patterns` table: alternatives of each regex, with the ticker
it maps to, in the (insertion-ordered) iteration order of the Python dict. -/
def tickerPatterns : List (List String × String) :=
  [(["AAPL", "Apple"], "AAPL"),
   (["MSFT", "Microsoft"], "MSFT"),
   (["GOOGL", "GOOG", "Google", "Alphabet"], "GOOGL"),
   (["AMZN", "Amazon"], "AMZN"),
   (["TSLA", "Tesla"], "TSLA"),
   (["META", "Facebook", "Meta"], "META"),
   (["NVDA", "Nvidia"], "NVDA"),
   (["NFLX", "Netflix"], "NFLX"),
   (["CRM", "Salesforce"], "CRM"),
   (["ORCL", "Oracle"], "ORCL")]

/-- `re.search(r'\b(alt₁|alt₂|…)\b', question, re.IGNORECASE)` for alternatives
made only of word characters: some maximal word run of the question equals the
alternative case-insensitively. -/
def aliasMatches (question alternative : String) : Bool :=
  (wordTokens question).any (fun w => pyLower w = pyLower alternative)

/-- `GraphRAGEngine._extract_company_ticker(question)`: first pattern (in
table order) with a matching alternative wins; `None` when nothing matches. -/
def extractCompanyTicker (question : String) : Option String :=
  (tickerPatterns.find? (fun p => p.1.any (aliasMatches question))).map (fun p => p.2)

/-- The `stop_words` set of `_extract_search_terms`. -/
def stopWords : List String :=
  ["what", "are", "the", "is", "how", "does", "do", "can", "will", "would", "should"]

/-- `GraphRAGEngine._extract_search_terms(question)`: lowercase word tokens,
minus stop words and tokens of length ≤ 2, first five, space-joined. -/
def extractSearchTerms (question : String) : String :=
  let words := wordTokens (pyLower question)
  let relevantWords := words.filter (fun w => !stopWords.contains w && 2 < w.length)
  pyJoin " " (relevantWords.take 5)

/-! ## Fetch dispatch and fan-in —
`GraphRAGEngine._fetch_external_data` (graphrag_engine.py:162-199) -/

/-- A dispatched fetch coroutine (the element appended to `tasks`). -/
inductive FetchTask
  | secTask (ticker : String)
  | redditTask (searchTerms : String)
  | tiktokTask (searchTerms : String)
deriving DecidableEq, Repr

/-- The source a task fetches from. -/
def FetchTask.sourceOf : FetchTask → SourceType
  | .secTask _ => .sec
  | .redditTask _ => .reddit
  | .tiktokTask _ => .tiktok

/-- The task-building loop of `_fetch_external_data`: an SEC task is appended
only when `source == SourceType.SEC and company_ticker` (a source `sec`
request without an extracted ticker falls through every branch and is
skipped); Reddit and TikTok tasks are appended whenever their source is
requested. -/
def dispatchTasks (question : String) (sources : List SourceType) : List FetchTask :=
  let companyTicker := extractCompanyTicker question
  let searchTerms := extractSearchTerms question
  sources.flatMap (fun source =>
    match source, companyTicker with
    | .sec, some tk => [FetchTask.secTask tk]
    | .sec, none => []
    | .reddit, _ => [FetchTask.redditTask searchTerms]
    | .tiktok, _ => [FetchTask.tiktokTask searchTerms])

/-- `_fetch_external_data` after task construction:
`asyncio.gather(*tasks, return_exceptions=True)` settles every task — an
outcome per task, in task order, no cross-cancellation — and the
comprehension `[r for r in results if isinstance(r, ExternalAPIResponse)]`
keeps exactly the successful outcomes.  `runTask` is the oracle giving each
task coroutine's outcome. -/
def fetchExternalData (runTask : FetchTask → Except String ExternalAPIResponse)
    (question : String) (sources : List SourceType) : List ExternalAPIResponse :=
  let tasks := dispatchTasks question sources
  let results := tasks.map runTask
  results.filterMap (fun r => match r with | .ok x => some x | .error _ => none)

/-- Which requested sources lead to a dispatched task, for every source kind
at once (`sec` additionally needs an extracted ticker). -/
theorem dispatchTasks_any (question : String) (sources : List SourceType)
    (src : SourceType) :
    (dispatchTasks question sources).any (fun t => t.sourceOf = src) =
      (sources.contains src &&
        (src ≠ SourceType.sec || (extractCompanyTicker question).isSome)) := by
  induction sources with
  | nil => simp [dispatchTasks]
  | cons s rest ih =>
    cases s <;> cases htk : extractCompanyTicker question <;> cases src <;>
      simp_all [dispatchTasks, FetchTask.sourceOf, htk] <;> exact ih

/-! ## Mock graph search — `GraphRAGEngine._find_relevant_nodes`
(graphrag_engine.py:137-160) -/

/-- A node of the mock relevant-node list (`relevance` in hundredths). -/
structure RelevantNode where
  id : String
  type : String
  name : String
  relevance : Nat
deriving DecidableEq, Repr

/-- `_find_relevant_nodes` returns fixed mock data for every input. -/
def findRelevantNodes (_question : String) (_maxHops : Nat) : List RelevantNode :=
  [{ id := "company_AAPL", type := "Company", name := "Apple Inc.", relevance := 95 },
   { id := "risk_climate_001", type := "Risk", name := "Climate Change Risk", relevance := 87 }]

/-! ## Synthesizer — `GraphRAGEngine._run_graphrag_reasoning`
(graphrag_engine.py:397-485) -/

/-- The per-source bucket built by the
`for response in external_data: … .extend(response.data)` loop: the records
of every response of the given source, concatenated in response order. -/
def sourceData (src : SourceType) (externalData : List ExternalAPIResponse) :
    List SourceRecord :=
  (externalData.filter (fun r => r.source = src)).flatMap (fun r => r.data)

/-- `_extract_relevant_content` returns `None` unconditionally (deliberate:
synthesis is delegated downstream). -/
def extractRelevantContent (_question : String)
    (_secData _redditData _tiktokData : List SourceRecord) : Option String := none

/-- The fixed disclaimer used when answer generation is requested but
`answer_content` is falsy. -/
def disclaimerAnswer : String :=
  "Based on the citations provided, please refer to the source documents for specific details."

/-- The dict returned by `_run_graphrag_reasoning` (the `raw_data` counts are
kept as the three fields). -/
structure ReasoningOutput where
  answer : Option String
  citations : List Citation
  graph_path : List String
  secCount : Nat
  redditCount : Nat
  tiktokCount : Nat
deriving DecidableEq, Repr

/-- `GraphRAGEngine._run_graphrag_reasoning(question, relevant_nodes,
external_data, include_answer)`.  `pyHash` is the oracle for Python's
(run-deterministic, salted) `abs(hash(url))` used only inside `node_id`
strings. -/
def runGraphragReasoning (pyHash : String → Nat) (question : String)
    (_relevantNodes : List RelevantNode) (externalData : List ExternalAPIResponse)
    (includeAnswer : Bool) : ReasoningOutput :=
  let secData := sourceData SourceType.sec externalData
  let redditData := sourceData SourceType.reddit externalData
  let tiktokData := sourceData SourceType.tiktok externalData
  let answerContent := extractRelevantContent question secData redditData tiktokData
  let secCitations := (secData.take 5).map (fun filing =>
    { node_id := "sec_" ++ filing.cik.getD "unknown" ++ "_" ++ filing.accession.getD "unknown"
      source := SourceType.sec
      url := filing.url.getD ""
      snippet := extractRelevantSnippet (filing.content.getD "") question 500
      confidence := 95 : Citation })
  let redditCitations := (redditData.take 5).map (fun post =>
    { node_id := "reddit_" ++ toString (pyHash (post.url.getD ""))
      source := SourceType.reddit
      url := post.url.getD ""
      snippet := extractRelevantSnippet (post.content.getD "") question 400
      confidence := 78 : Citation })
  let tiktokCitations := (tiktokData.take 3).map (fun content =>
    { node_id := "tiktok_" ++ toString (pyHash (content.url.getD ""))
      source := SourceType.tiktok
      url := content.url.getD ""
      snippet := extractRelevantSnippet (content.content.getD "") question 300
      confidence := 65 : Citation })
  let graphPath := ["query_analysis"]
    ++ (if secData.isEmpty then [] else ["sec_filings"])
    ++ (if redditData.isEmpty then [] else ["reddit_discussions"])
    ++ (if tiktokData.isEmpty then [] else ["tiktok_content"])
    ++ ["synthesis"]
  let answer := if includeAnswer then some (answerContent.getD disclaimerAnswer) else none
  { answer := answer
    citations := secCitations ++ redditCitations ++ tiktokCitations
    graph_path := graphPath
    secCount := secData.length
    redditCount := redditData.length
    tiktokCount := tiktokData.length }

/-! ## Orchestrator — `GraphRAGEngine.process_query`
(graphrag_engine.py:45-135) -/

/-- The awaited processing steps of `process_query`, as oracles: each models
one awaited call inside the `try` block and may raise (`Except.error`). -/
structure EngineSteps where
  findNodes : String → Nat → Except String (List RelevantNode)
  fetchData : String → List SourceType → Except String (List ExternalAPIResponse)
  updateGraph : List ExternalAPIResponse → Except String Unit
  reason : String → List RelevantNode → List ExternalAPIResponse → Bool →
    Except String ReasoningOutput
  cacheResult : QueryResponse → Except String Unit

/-- The default source list. -/
def defaultSources : List SourceType :=
  [SourceType.sec, SourceType.reddit, SourceType.tiktok]

/-- `sources = sources or [SourceType.SEC, SourceType.REDDIT,
SourceType.TIKTOK]`: Python `or` replaces both `None` and the (falsy) empty
list by the default. -/
def effectiveSources : Option (List SourceType) → List SourceType
  | none => defaultSources
  | some [] => defaultSources
  | some (s :: rest) => s :: rest

/-- Steps 1-4 of the `try` block of `process_query` (graph lookup, external
fetch, conditional graph update, reasoning) chained so that the first raising
step aborts the pipeline, plus the construction of the `QueryResult`. -/
def runPipeline (steps : EngineSteps) (question : String) (maxHops : Nat)
    (sources : List SourceType) (includeAnswer : Bool) (processingTime : Nat) :
    Except String QueryResult := do
  let relevantNodes ← steps.findNodes question maxHops
  let externalData ← steps.fetchData question sources
  let _ ← if externalData.isEmpty then pure () else steps.updateGraph externalData
  let result ← steps.reason question relevantNodes externalData includeAnswer
  pure { answer := result.answer, citations := result.citations,
         graph_path := result.graph_path, processing_time := processingTime }

/-- The in-memory `active_queries` dict. -/
abbrev QueryTable := List (String × ProcessingContext)

/-- `self.active_queries[query_id] = context`. -/
def tableSet (t : QueryTable) (k : String) (v : ProcessingContext) : QueryTable :=
  (k, v) :: t.filter (fun e => e.1 ≠ k)

/-- `self.active_queries.pop(query_id, None)` (the `finally` cleanup). -/
def tablePop (t : QueryTable) (k : String) : QueryTable :=
  t.filter (fun e => e.1 ≠ k)

/-- Dict lookup on the active-query table. -/
def tableLookup (t : QueryTable) (k : String) : Option ProcessingContext :=
  (t.find? (fun e => e.1 = k)).map (fun e => e.2)

/-- `GraphRAGEngine.process_query`.  `queryId` stands for the generated
`uuid4`, `startTime`/`now` for the wall-clock reads, `processingTime` for the
elapsed milliseconds.  The registration happens before the `try` block, the
`except Exception` arm builds the FAILED envelope, the `finally` arm pops the
registration on both outcomes.  The post-success cache write is attempted and
its outcome discarded (its own `try/except` swallows every cache error). -/
def processQuery (steps : EngineSteps) (question : String) (maxHops : Nat)
    (sourcesOpt : Option (List SourceType)) (userId queryId : String)
    (startTime now processingTime : Nat) (includeAnswer : Bool)
    (activeQueries : QueryTable) : QueryResponse × QueryTable :=
  let sources := effectiveSources sourcesOpt
  let context : ProcessingContext :=
    { user_id := userId, query_id := queryId, question := question,
      max_hops := maxHops, sources := sources, start_time := startTime }
  let registered := tableSet activeQueries queryId context
  match runPipeline steps question maxHops sources includeAnswer processingTime with
  | .ok result =>
    let response : QueryResponse :=
      { query_id := queryId, question := question, status := QueryStatus.completed,
        result := some result, created_at := context.start_time,
        completed_at := some now }
    let _ := steps.cacheResult response
    (response, tablePop registered queryId)
  | .error _ =>
    ({ query_id := queryId, question := question, status := QueryStatus.failed,
       result := none, created_at := context.start_time,
       completed_at := some now }, tablePop registered queryId)

/-- The concrete engine: the mock node lookup, the real fan-out/fan-in with
task outcomes given by `runTask`, the no-op graph update, and the real
reasoning step — none of which can itself raise (per-task failures are
captured by `gather(…, return_exceptions=True)`). -/
def engineSteps (pyHash : String → Nat)
    (runTask : FetchTask → Except String ExternalAPIResponse) : EngineSteps :=
  { findNodes := fun q mh => .ok (findRelevantNodes q mh)
    fetchData := fun q srcs => .ok (fetchExternalData runTask q srcs)
    updateGraph := fun _ => .ok ()
    reason := fun q nodes ext ia => .ok (runGraphragReasoning pyHash q nodes ext ia)
    cacheResult := fun _ => .ok () }

/-! ## Claim C3 — snippet length bound -/

/-- C3 counterexample: at `content = ""`, `question = ""`, `max_length = 0`
the extractor returns the 20-character placeholder "No content available",
which exceeds `max_length + len("...") = 3`; so the universally quantified
length bound of the claim is false as stated. -/
theorem extract_relevant_snippet_bound_cex :
    ¬ ((extractRelevantSnippet "" "" 0).length ≤ 0 + ("..." : String).length) := by
  decide

/-- C3 (amended): for every *non-empty* content the extractor's output length
is at most `max_length + len("...")`; empty or missing content yields the
fixed non-empty placeholder string "No content available" (never the empty
string).  The bound cannot cover the empty-content case, where the
20-character placeholder is returned regardless of `max_length`. -/
theorem extract_relevant_snippet_bound (content question : String)
    (maxLength : Nat) :
    extractRelevantSnippet "" question maxLength = "No content available" ∧
    (content ≠ "" →
      (extractRelevantSnippet content question maxLength).length ≤ maxLength + 3) := by
  constructor
  · unfold extractRelevantSnippet
    rw [if_pos rfl]
  intro h
  unfold extractRelevantSnippet
  rw [if_neg h]
  dsimp only
  split
  · split
    · rw [pyAppend_length, ellipsis_length]
      exact Nat.add_le_add_right (pyTake_length _ _) 3
    · rename_i hshort
      omega
  · split
    · rw [pyAppend_length, ellipsis_length]
      exact Nat.add_le_add_right (pyTake_length _ _) 3
    · rename_i hshort
      omega

/-- Witness for C3's amended bound at a concrete input. -/
theorem extract_relevant_snippet_bound_witness :
    (extractRelevantSnippet "alpha beta" "" 4).length ≤ 4 + 3 :=
  (extract_relevant_snippet_bound "alpha beta" "" 4).2 (by decide)

/-! ## Claim C6 — regulatory dispatch gating -/

/-- C6: a regulatory (SEC) fetch task is dispatched iff the `sec` source was
requested *and* a company ticker was extracted from the question; discussion
(Reddit) and video (TikTok) fetch tasks are dispatched iff their source was
requested, regardless of ticker or keyword extraction. -/
theorem regulatory_dispatch_gating (question : String) (sources : List SourceType) :
    ((∃ t ∈ dispatchTasks question sources, t.sourceOf = SourceType.sec) ↔
      (SourceType.sec ∈ sources ∧ extractCompanyTicker question ≠ none)) ∧
    ((∃ t ∈ dispatchTasks question sources, t.sourceOf = SourceType.reddit) ↔
      SourceType.reddit ∈ sources) ∧
    ((∃ t ∈ dispatchTasks question sources, t.sourceOf = SourceType.tiktok) ↔
      SourceType.tiktok ∈ sources) := by
  induction sources with
  | nil => simp [dispatchTasks]
  | cons s rest ih =>
    obtain ⟨ih₁, ih₂, ih₃⟩ := ih
    cases s <;> cases htk : extractCompanyTicker question <;>
      simp_all [dispatchTasks, FetchTask.sourceOf, htk] <;> tauto

/-! ## Claim C2 — failure envelope of `process_query` -/

/-- C2: for every choice of step behaviours (so for every input and every
raising/non-raising pattern of the internal steps), `process_query` returns a
well-formed envelope carrying the generated query id, the question, and both
timestamps; when the pipeline raises, the status is FAILED with `result`
absent, and when it does not, the status is COMPLETED with the result
present. -/
theorem process_query_failure_envelope (steps : EngineSteps) (question : String)
    (maxHops : Nat) (sourcesOpt : Option (List SourceType)) (userId queryId : String)
    (startTime now processingTime : Nat) (includeAnswer : Bool) (table : QueryTable) :
    let resp := (processQuery steps question maxHops sourcesOpt userId queryId
      startTime now processingTime includeAnswer table).1
    resp.query_id = queryId ∧ resp.question = question ∧
    resp.created_at = startTime ∧ resp.completed_at = some now ∧
    (∀ e, runPipeline steps question maxHops (effectiveSources sourcesOpt)
        includeAnswer processingTime = .error e →
      resp.status = QueryStatus.failed ∧ resp.result = none) ∧
    (∀ r, runPipeline steps question maxHops (effectiveSources sourcesOpt)
        includeAnswer processingTime = .ok r →
      resp.status = QueryStatus.completed ∧ resp.result = some r) := by
  cases hp : runPipeline steps question maxHops (effectiveSources sourcesOpt)
      includeAnswer processingTime <;>
    simp [processQuery, hp]

/-- A step record in which the very first awaited call raises. -/
def failingSteps : EngineSteps :=
  { findNodes := fun _ _ => .error "boom"
    fetchData := fun _ _ => .error "boom"
    updateGraph := fun _ => .error "boom"
    reason := fun _ _ _ _ => .error "boom"
    cacheResult := fun _ => .ok () }

/-- Witness for C2 at a concrete failing input. -/
theorem process_query_failure_envelope_witness :
    (processQuery failingSteps "q" 2 none "u" "id" 0 1 5 true []).1.status =
        QueryStatus.failed ∧
    (processQuery failingSteps "q" 2 none "u" "id" 0 1 5 true []).1.result = none :=
  (process_query_failure_envelope failingSteps "q" 2 none "u" "id" 0 1
    5 true []).2.2.2.2.1 "boom" rfl

/-! ## Claim C7 — active-query table cleanup -/

/-- Popping a key removes it: lookup after `tablePop` is `none`. -/
theorem tableLookup_pop_self (t : QueryTable) (k : String) :
    tableLookup (tablePop t k) k = none := by
  induction t with
  | nil => rfl
  | cons e rest ih =>
    by_cases he : e.1 = k
    · simpa [tablePop, he] using ih
    · simp_all [tablePop, tableLookup, he]

/-- Popping a key leaves every other key's binding unchanged. -/
theorem tableLookup_pop_other (t : QueryTable) (k k' : String) (h : k' ≠ k) :
    tableLookup (tablePop t k) k' = tableLookup t k' := by
  induction t with
  | nil => rfl
  | cons e rest ih =>
    by_cases he : e.1 = k
    · have hne : e.1 ≠ k' := by rw [he]; exact fun hk => h hk.symm
      show tableLookup (tablePop (e :: rest) k) k' = tableLookup (e :: rest) k'
      unfold tablePop tableLookup
      rw [List.filter_cons_of_neg (by simpa using he),
        List.find?_cons_of_neg _ (by simpa using hne)]
      exact ih
    · show tableLookup (tablePop (e :: rest) k) k' = tableLookup (e :: rest) k'
      unfold tablePop tableLookup
      rw [List.filter_cons_of_pos (by simpa using he)]
      by_cases he' : e.1 = k'
      · rw [List.find?_cons_of_pos _ (by simpa using he'),
          List.find?_cons_of_pos _ (by simpa using he')]
      · rw [List.find?_cons_of_neg _ (by simpa using he'),
          List.find?_cons_of_neg _ (by simpa using he')]
        exact ih

/-- Popping right after setting the same key is popping alone. -/
theorem tablePop_set_self (t : QueryTable) (k : String) (v : ProcessingContext) :
    tablePop (tableSet t k v) k = tablePop t k := by
  simp [tablePop, tableSet, List.filter_filter]

/-- C7: whatever the steps do, after `process_query` finishes its query id is
absent from the active-query table, and every other key's registration is
exactly as before the call. -/
theorem active_query_cleanup (steps : EngineSteps) (question : String)
    (maxHops : Nat) (sourcesOpt : Option (List SourceType)) (userId queryId : String)
    (startTime now processingTime : Nat) (includeAnswer : Bool) (table : QueryTable) :
    let final := (processQuery steps question maxHops sourcesOpt userId queryId
      startTime now processingTime includeAnswer table).2
    tableLookup final queryId = none ∧
    ∀ k, k ≠ queryId → tableLookup final k = tableLookup table k := by
  constructor
  · cases hp : runPipeline steps question maxHops (effectiveSources sourcesOpt)
        includeAnswer processingTime <;>
      simp only [processQuery, hp] <;>
      rw [tablePop_set_self] <;> exact tableLookup_pop_self _ _
  · intro k hk
    cases hp : runPipeline steps question maxHops (effectiveSources sourcesOpt)
        includeAnswer processingTime <;>
      simp only [processQuery, hp] <;>
      rw [tablePop_set_self] <;> exact tableLookup_pop_other _ _ _ hk

/-- Witness for C7 at a concrete input (distinct foreign key). -/
theorem active_query_cleanup_witness :
    ("other" : String) ≠ "id" ∧
    tableLookup (processQuery failingSteps "q" 2 none "u" "id" 0 1 5 true []).2
        "other" = tableLookup [] "other" :=
  ⟨by decide, (active_query_cleanup failingSteps "q" 2 none "u" "id" 0 1
    5 true []).2 "other" (by decide)⟩

/-! ## Claim C10 — empty source list defaults to all sources -/

/-- C10: `process_query` behaves identically on `sources=[]` and
`sources=None` — both are replaced by the full default source list — and with
a ticker-bearing question the defaulted selection dispatches one fetch per
source kind (regulatory, discussion, video) instead of none. -/
theorem empty_sources_default (steps : EngineSteps) (question : String)
    (maxHops : Nat) (userId queryId : String) (startTime now processingTime : Nat)
    (includeAnswer : Bool) (table : QueryTable) :
    processQuery steps question maxHops (some []) userId queryId startTime now
        processingTime includeAnswer table =
      processQuery steps question maxHops none userId queryId startTime now
        processingTime includeAnswer table ∧
    effectiveSources (some []) = defaultSources ∧
    ((extractCompanyTicker question).isSome →
      (dispatchTasks question (effectiveSources (some []))).map FetchTask.sourceOf =
        [SourceType.sec, SourceType.reddit, SourceType.tiktok]) := by
  refine ⟨rfl, rfl, ?_⟩
  intro h
  obtain ⟨tk, htk⟩ := Option.isSome_iff_exists.mp h
  simp [dispatchTasks, effectiveSources, defaultSources, htk, FetchTask.sourceOf]

/-- Witness for C10 at a concrete ticker-bearing question. -/
theorem empty_sources_default_witness :
    (extractCompanyTicker "What are Apple ESG risks").isSome = true ∧
    (dispatchTasks "What are Apple ESG risks"
        (effectiveSources (some []))).map FetchTask.sourceOf =
      [SourceType.sec, SourceType.reddit, SourceType.tiktok] :=
  ⟨by decide, (empty_sources_default failingSteps "What are Apple ESG risks" 2
    "u" "id" 0 0 0 true []).2.2 (by decide)⟩

/-! ## Claim C9 — fixed output ordering of the synthesizer -/

/-- Whether some response of the given source contributed at least one
record. -/
def hasData (src : SourceType) (externalData : List ExternalAPIResponse) : Bool :=
  externalData.any (fun r => r.source = src && !r.data.isEmpty)

/-- A source's bucket is empty exactly when no response of that source
carried records. -/
theorem sourceData_isEmpty (src : SourceType) (ext : List ExternalAPIResponse) :
    (sourceData src ext).isEmpty = !hasData src ext := by
  induction ext with
  | nil => rfl
  | cons r rest ih =>
    unfold sourceData hasData at ih ⊢
    by_cases hs : r.source = src
    · rw [List.filter_cons_of_pos (by simpa using hs), List.flatMap_cons,
        List.any_cons]
      cases hd : r.data <;> simp [ih, hs]
    · rw [List.filter_cons_of_neg (by simpa using hs), List.any_cons, ih]
      simp [hs]

/-- `hasData` only depends on membership, so it is invariant under
permutation of the response list. -/
theorem hasData_perm (src : SourceType) {l₁ l₂ : List ExternalAPIResponse}
    (h : l₁.Perm l₂) : hasData src l₁ = hasData src l₂ := by
  apply bool_eq_of_iff
  unfold hasData
  simp only [List.any_eq_true]
  exact ⟨fun ⟨x, hx, hp⟩ => ⟨x, h.mem_iff.mp hx, hp⟩,
         fun ⟨x, hx, hp⟩ => ⟨x, h.mem_iff.mpr hx, hp⟩⟩

/-- Mapping a constant-source citation constructor gives a constant source
list. -/
theorem map_source_const {α : Type} (l : List α) (g : α → Citation)
    (src : SourceType) (h : ∀ a, (g a).source = src) :
    (l.map g).map (fun cit => cit.source) = List.replicate l.length src := by
  induction l with
  | nil => rfl
  | cons a rest ih => simp [List.replicate_succ, h a, ih]

/-- C9: for every input list of per-source fetch results, in any order, the
synthesizer's citation list is grouped in the fixed priority order
(regulatory, then discussion, then video); the graph path starts with
"query_analysis", contains one stage label per source that contributed at
least one record, in that same fixed order, and ends with "synthesis"; and
the graph path is invariant under permutation of the input (fetch completion
order). -/
theorem synthesizer_fixed_ordering (pyHash : String → Nat) (question : String)
    (relevantNodes : List RelevantNode) (externalData : List ExternalAPIResponse)
    (includeAnswer : Bool) :
    let out := runGraphragReasoning pyHash question relevantNodes externalData
      includeAnswer
    (∃ a b c, out.citations.map (fun cit => cit.source) =
      List.replicate a SourceType.sec ++ List.replicate b SourceType.reddit ++
        List.replicate c SourceType.tiktok) ∧
    out.graph_path = "query_analysis" ::
      ((if hasData SourceType.sec externalData then ["sec_filings"] else []) ++
       (if hasData SourceType.reddit externalData then ["reddit_discussions"] else []) ++
       (if hasData SourceType.tiktok externalData then ["tiktok_content"] else []) ++
       ["synthesis"]) ∧
    (∀ externalData', externalData'.Perm externalData →
      (runGraphragReasoning pyHash question relevantNodes externalData'
        includeAnswer).graph_path = out.graph_path) := by
  refine ⟨⟨((sourceData SourceType.sec externalData).take 5).length,
          ((sourceData SourceType.reddit externalData).take 5).length,
          ((sourceData SourceType.tiktok externalData).take 3).length, ?_⟩, ?_, ?_⟩
  · unfold runGraphragReasoning
    dsimp only
    rw [List.map_append, List.map_append,
      map_source_const _ _ SourceType.sec (fun _ => rfl),
      map_source_const _ _ SourceType.reddit (fun _ => rfl),
      map_source_const _ _ SourceType.tiktok (fun _ => rfl)]
  · unfold runGraphragReasoning
    dsimp only
    rw [sourceData_isEmpty, sourceData_isEmpty, sourceData_isEmpty]
    cases hasData SourceType.sec externalData <;>
      cases hasData SourceType.reddit externalData <;>
        cases hasData SourceType.tiktok externalData <;> simp
  · intro externalData' hperm
    unfold runGraphragReasoning
    dsimp only
    rw [sourceData_isEmpty, sourceData_isEmpty, sourceData_isEmpty,
      sourceData_isEmpty, sourceData_isEmpty, sourceData_isEmpty,
      hasData_perm SourceType.sec hperm, hasData_perm SourceType.reddit hperm,
      hasData_perm SourceType.tiktok hperm]

/-- Witness for C9's permutation clause, on a two-element response list
presented in swapped arrival orders. -/
theorem synthesizer_fixed_ordering_witness :
    (runGraphragReasoning (fun _ => 0) "q" []
      [{ source := SourceType.reddit, data := [{ content := some "r" }], cached := false },
       { source := SourceType.sec, data := [{ content := some "s" }], cached := false }]
      true).graph_path =
    (runGraphragReasoning (fun _ => 0) "q" []
      [{ source := SourceType.sec, data := [{ content := some "s" }], cached := false },
       { source := SourceType.reddit, data := [{ content := some "r" }], cached := false }]
      true).graph_path :=
  (synthesizer_fixed_ordering (fun _ => 0) "q" []
    [{ source := SourceType.sec, data := [{ content := some "s" }], cached := false },
     { source := SourceType.reddit, data := [{ content := some "r" }], cached := false }]
    true).2.2
    [{ source := SourceType.reddit, data := [{ content := some "r" }], cached := false },
     { source := SourceType.sec, data := [{ content := some "s" }], cached := false }]
    (List.Perm.swap _ _ _)


/-! ## Claim C1 — partial-failure fan-in -/

/-- Fan-in scenario fixture: the outcome of each dispatched task when the
task of source `failSrc` raises `errMsg` and every other task returns a
normal response carrying `okData` of its source. -/
def failRunTask (okData : SourceType → List SourceRecord) (failSrc : SourceType)
    (errMsg : String) : FetchTask → Except String ExternalAPIResponse := fun t =>
  if t.sourceOf = failSrc then .error errMsg
  else .ok { source := t.sourceOf, data := okData t.sourceOf, cached := false }

/-- The responses of the non-failing sources, in dispatch order. -/
def fanInSuccesses (okData : SourceType → List SourceRecord)
    (failSrc : SourceType) : List ExternalAPIResponse :=
  (defaultSources.filter (fun s => s ≠ failSrc)).map
    (fun s => ({ source := s, data := okData s, cached := false } : ExternalAPIResponse))

/-- `Except` bind on a success reduces to the continuation. -/
theorem except_bind_ok {ε α β : Type} (a : α) (f : α → Except ε β) :
    (Except.ok a >>= f : Except ε β) = f a := rfl

/-- `pure` on `Except` is `Except.ok`. -/
theorem except_pure {ε α : Type} (a : α) : (pure a : Except ε α) = Except.ok a := rfl

/-- The concrete engine's pipeline never raises: it always produces the
result synthesised from whatever the fan-in kept. -/
theorem runPipeline_engineSteps (pyHash : String → Nat)
    (runTask : FetchTask → Except String ExternalAPIResponse)
    (question : String) (maxHops : Nat) (sources : List SourceType)
    (includeAnswer : Bool) (processingTime : Nat) :
    runPipeline (engineSteps pyHash runTask) question maxHops sources
        includeAnswer processingTime =
      Except.ok
        { answer := (runGraphragReasoning pyHash question
            (findRelevantNodes question maxHops)
            (fetchExternalData runTask question sources) includeAnswer).answer
          citations := (runGraphragReasoning pyHash question
            (findRelevantNodes question maxHops)
            (fetchExternalData runTask question sources) includeAnswer).citations
          graph_path := (runGraphragReasoning pyHash question
            (findRelevantNodes question maxHops)
            (fetchExternalData runTask question sources) includeAnswer).graph_path
          processing_time := processingTime } := by
  simp only [runPipeline, engineSteps, except_bind_ok, except_pure]
  cases hb : (fetchExternalData runTask question sources).isEmpty <;>
    simp [except_bind_ok, except_pure]

/-- A non-raising pipeline yields the COMPLETED envelope with that result. -/
theorem processQuery_of_pipeline_ok (steps : EngineSteps) (question : String)
    (maxHops : Nat) (sourcesOpt : Option (List SourceType)) (userId queryId : String)
    (startTime now processingTime : Nat) (includeAnswer : Bool) (table : QueryTable)
    (r : QueryResult)
    (h : runPipeline steps question maxHops (effectiveSources sourcesOpt)
      includeAnswer processingTime = .ok r) :
    (processQuery steps question maxHops sourcesOpt userId queryId startTime now
        processingTime includeAnswer table).1 =
      { query_id := queryId, question := question, status := QueryStatus.completed,
        result := some r, created_at := startTime, completed_at := some now } := by
  unfold processQuery
  dsimp only
  rw [h]

/-- Every citation the synthesizer emits comes from a non-empty bucket of its
own source. -/
theorem citation_source_hasData (pyHash : String → Nat) (question : String)
    (nodes : List RelevantNode) (ext : List ExternalAPIResponse) (ia : Bool) :
    ∀ cit ∈ (runGraphragReasoning pyHash question nodes ext ia).citations,
      sourceData cit.source ext ≠ [] := by
  unfold runGraphragReasoning
  dsimp only
  intro cit hcit
  rcases List.mem_append.mp hcit with hmem | hmem₃
  · rcases List.mem_append.mp hmem with hmem₁ | hmem₂
    · obtain ⟨a, ha, rfl⟩ := List.mem_map.mp hmem₁
      intro hnil
      rw [hnil] at ha
      simp at ha
    · obtain ⟨a, ha, rfl⟩ := List.mem_map.mp hmem₂
      intro hnil
      rw [hnil] at ha
      simp at ha
  · obtain ⟨a, ha, rfl⟩ := List.mem_map.mp hmem₃
    intro hnil
    rw [hnil] at ha
    simp at ha

/-- C1: with all three sources requested and a ticker-bearing question (so
three fetch tasks are dispatched), if the task of one source raises while the
other two return responses, `process_query` returns status COMPLETED (not
FAILED) and its result's citations are exactly those the synthesizer derives
from the two successful responses alone; the failing source contributes zero
citations. -/
theorem partial_failure_fan_in (pyHash : String → Nat) (question tk errMsg : String)
    (okData : SourceType → List SourceRecord) (failSrc : SourceType)
    (htk : extractCompanyTicker question = some tk)
    (maxHops : Nat) (userId queryId : String) (startTime now processingTime : Nat)
    (includeAnswer : Bool) (table : QueryTable) :
    (processQuery (engineSteps pyHash (failRunTask okData failSrc errMsg))
      question maxHops (some defaultSources) userId queryId startTime now
      processingTime includeAnswer table).1.status = QueryStatus.completed ∧
    (∃ res, (processQuery (engineSteps pyHash (failRunTask okData failSrc errMsg))
        question maxHops (some defaultSources) userId queryId startTime now
        processingTime includeAnswer table).1.result = some res ∧
      res.citations = (runGraphragReasoning pyHash question
        (findRelevantNodes question maxHops) (fanInSuccesses okData failSrc)
        includeAnswer).citations ∧
      ∀ cit ∈ res.citations, cit.source ≠ failSrc) := by
  have hdisp : dispatchTasks question defaultSources =
      [FetchTask.secTask tk, FetchTask.redditTask (extractSearchTerms question),
       FetchTask.tiktokTask (extractSearchTerms question)] := by
    simp [dispatchTasks, defaultSources, htk]
  have hfetch : fetchExternalData (failRunTask okData failSrc errMsg) question
      defaultSources = fanInSuccesses okData failSrc := by
    unfold fetchExternalData
    dsimp only
    rw [hdisp]
    cases failSrc <;>
      simp [failRunTask, fanInSuccesses, FetchTask.sourceOf, defaultSources]
  have hpipe := runPipeline_engineSteps pyHash (failRunTask okData failSrc errMsg)
    question maxHops defaultSources includeAnswer processingTime
  rw [hfetch] at hpipe
  have hfinal := processQuery_of_pipeline_ok
    (engineSteps pyHash (failRunTask okData failSrc errMsg)) question maxHops
    (some defaultSources) userId queryId startTime now processingTime
    includeAnswer table _ hpipe
  have hempty : sourceData failSrc (fanInSuccesses okData failSrc) = [] := by
    cases failSrc <;> simp [fanInSuccesses, sourceData, defaultSources]
  refine ⟨by rw [hfinal], ⟨_, by rw [hfinal], rfl, ?_⟩⟩
  intro cit hcit heq
  exact citation_source_hasData pyHash question (findRelevantNodes question maxHops)
    (fanInSuccesses okData failSrc) includeAnswer cit hcit (heq ▸ hempty)

/-- Witness for C1 at a concrete ticker-bearing question with the SEC task
failing. -/
theorem partial_failure_fan_in_witness :
    extractCompanyTicker "What are Apple ESG risks" = some "AAPL" ∧
    (processQuery (engineSteps (fun _ => 0)
        (failRunTask (fun _ => []) SourceType.sec "e"))
      "What are Apple ESG risks" 2 (some defaultSources) "u" "id" 0 1 5 true
      []).1.status = QueryStatus.completed :=
  ⟨by decide, (partial_failure_fan_in (fun _ => 0) "What are Apple ESG risks"
    "AAPL" "e" (fun _ => []) SourceType.sec (by decide) 2 "u" "id" 0 1 5 true
    []).1⟩

/-! ## Claim C4 — cached-result idempotence of `create_query`
(src/main.py:160-224) -/

/-- Deterministic stand-in for the md5 query fingerprint
`md5(f"{question}:{sorted(sources)}:{max_hops}".encode()).hexdigest()`:
the digest is a deterministic function of `(question, sorted sources,
max_hops)`, and determinism plus key equality is all the cache logic relies
on, so the key is modelled by that triple itself. -/
structure QueryKey where
  question : String
  sortedSources : List SourceType
  maxHops : Nat
deriving DecidableEq, Repr

/-- Stable ascending insertion by the enum's string value (Python's
`sorted` on a `str` enum compares the member strings). -/
def insertSourceAsc (s : SourceType) : List SourceType → List SourceType
  | [] => [s]
  | t :: rest =>
    if pyStrLe s.value t.value then s :: t :: rest else t :: insertSourceAsc s rest

/-- `sorted(sources)`. -/
def sortSources : List SourceType → List SourceType
  | [] => []
  | s :: rest => insertSourceAsc s (sortSources rest)

/-- The query-result cache key of `create_query`. -/
def queryKey (question : String) (sources : List SourceType) (maxHops : Nat) :
    QueryKey :=
  { question := question, sortedSources := sortSources sources, maxHops := maxHops }

/-- The endpoint-visible cache state: `available` is whether the Redis client
is connected (`get_cached_query_result` returns `None` and
`cache_query_result` stores nothing otherwise); `queryCache` is the
`query_result:` namespace.  The `model_dump`/JSON round trip is the identity
on the modelled response, so values are stored directly. -/
structure ApiState where
  available : Bool
  queryCache : List (QueryKey × QueryResponse)
deriving DecidableEq, Repr

/-- `redis_client.get_cached_query_result(query_hash)`. -/
def getCachedQueryResult (st : ApiState) (k : QueryKey) : Option QueryResponse :=
  if st.available then (st.queryCache.find? (fun e => e.1 = k)).map (fun e => e.2)
  else none

/-- `redis_client.cache_query_result(query_hash, result, ttl)`. -/
def cacheQueryResult (st : ApiState) (k : QueryKey) (v : QueryResponse) : ApiState :=
  if st.available then
    { st with queryCache := (k, v) :: st.queryCache.filter (fun e => e.1 ≠ k) }
  else st

/-- What one `create_query` call produced: the HTTP response body, the cache
state afterwards, the `log_cache_operation` tag, and whether
`graphrag_engine.process_query` was invoked. -/
structure CreateQueryOutcome where
  response : QueryResponse
  state : ApiState
  cacheLog : String
  engineInvoked : Bool
deriving DecidableEq, Repr

/-- `create_query` (main.py:160-224), success path: compute the fingerprint
from `(question, sorted(sources), max_hops)`, return the cached response on a
hit (logging "hit", engine untouched), otherwise run the engine (`process`
oracle) and write its response through the cache.  Rate limiting and the
HTTP-500 error envelope are outside the orchestration core being modelled. -/
def createQuery (process : Unit → QueryResponse) (question : String)
    (maxHops : Nat) (sources : List SourceType) (st : ApiState) :
    CreateQueryOutcome :=
  let key := queryKey question sources maxHops
  match getCachedQueryResult st key with
  | some cached =>
    { response := cached, state := st, cacheLog := "hit", engineInvoked := false }
  | none =>
    let result := process ()
    { response := result, state := cacheQueryResult st key result,
      cacheLog := "miss", engineInvoked := true }

/-- Writing a key and reading it back hits the written value (store
available). -/
theorem getCached_cacheQueryResult (st : ApiState) (k : QueryKey)
    (v : QueryResponse) (hav : st.available = true) :
    getCachedQueryResult (cacheQueryResult st k v) k = some v := by
  simp [getCachedQueryResult, cacheQueryResult, hav]

/-- C4: with the store available, a second `create_query` call with the same
`(question, sources, max_hops)` — whatever engine behaviour it would have
used — returns exactly the first call's response, logs a cache hit, does not
invoke the engine (so intent extraction, source fetches, and synthesis are
all skipped), and leaves the cache state unchanged. -/
theorem cached_result_idempotence (process₁ process₂ : Unit → QueryResponse)
    (question : String) (maxHops : Nat) (sources : List SourceType)
    (st : ApiState) (hav : st.available = true) :
    let o₁ := createQuery process₁ question maxHops sources st
    let o₂ := createQuery process₂ question maxHops sources o₁.state
    o₂.response = o₁.response ∧ o₂.cacheLog = "hit" ∧
    o₂.engineInvoked = false ∧ o₂.state = o₁.state := by
  intro o₁ o₂
  have hkey : getCachedQueryResult o₁.state (queryKey question sources maxHops) =
      some o₁.response := by
    show getCachedQueryResult
      (createQuery process₁ question maxHops sources st).state _ = some
      (createQuery process₁ question maxHops sources st).response
    unfold createQuery
    dsimp only
    split
    · rename_i cached hc
      exact hc
    · exact getCached_cacheQueryResult st _ (process₁ ()) hav
  show (createQuery process₂ question maxHops sources o₁.state).response =
      o₁.response ∧
    (createQuery process₂ question maxHops sources o₁.state).cacheLog = "hit" ∧
    (createQuery process₂ question maxHops sources o₁.state).engineInvoked = false ∧
    (createQuery process₂ question maxHops sources o₁.state).state = o₁.state
  unfold createQuery
  dsimp only
  rw [hkey]
  exact ⟨rfl, rfl, rfl, rfl⟩

/-- A concrete response fixture for the C4 witness. -/
def demoResponse (tag : String) : QueryResponse :=
  { query_id := tag, question := "q", status := QueryStatus.completed,
    result := none, created_at := 0, completed_at := none }

/-- Witness for C4 on a concrete store and response. -/
theorem cached_result_idempotence_witness :
    (createQuery (fun _ => demoResponse "id2") "q" 2
        [SourceType.reddit, SourceType.sec]
        ((createQuery (fun _ => demoResponse "id1") "q" 2
          [SourceType.reddit, SourceType.sec]
          { available := true, queryCache := [] }).state)).response =
      (createQuery (fun _ => demoResponse "id1") "q" 2
        [SourceType.reddit, SourceType.sec]
        { available := true, queryCache := [] }).response :=
  (cached_result_idempotence (fun _ => demoResponse "id1")
    (fun _ => demoResponse "id2") "q" 2 [SourceType.reddit, SourceType.sec]
    { available := true, queryCache := [] } rfl).1

/-! ## Claim C8 — cache round-trip and fail-open
(src/db/redis_client.py:24-44, 74-94) -/

/-- Outcome of one attempt of the raw Redis call inside `with_retry`:
success, a retryable `redis.ConnectionError`/`redis.TimeoutError`, or any
other exception. -/
inductive AttemptResult
  | success
  | connError
  | otherError
deriving DecidableEq, Repr

/-- The connected store: key ↦ (value, optional expiry). -/
abbrev RedisStore := List (String × String × Option Nat)

/-- `RedisClient`: `client = None` models an absent/failed connection. -/
structure RedisClient where
  client : Option RedisStore
deriving DecidableEq, Repr

/-- `client.get(key)` against a connected store. -/
def storeLookup (store : RedisStore) (key : String) : Option String :=
  (store.find? (fun e => e.1 = key)).map (fun e => e.2.1)

/-- `client.set(key, value, ex=ttl)` against a connected store. -/
def storeSet (store : RedisStore) (key value : String) (ex : Option Nat) :
    RedisStore :=
  (key, value, ex) :: store.filter (fun e => e.1 ≠ key)

/-- `self.max_retries`. -/
def maxRetries : Nat := 3

/-- The retry loop of `with_retry`: `att n` is the outcome of the n-th
attempt, `opResult` the value a successful attempt returns, `dflt` the
operation's failure sentinel (`None` for operations whose name contains
"get", `False` otherwise).  A retryable error on the last attempt — or any
other exception, immediately — yields the sentinel instead of raising;
earlier retryable errors back off and try again. -/
def retryRun {α : Type} (att : Nat → AttemptResult) (opResult dflt : α) :
    Nat → Nat → α
  | 0, _ => dflt
  | fuel + 1, n =>
    match att n with
    | .success => opResult
    | .otherError => dflt
    | .connError => if fuel = 0 then dflt else retryRun att opResult dflt fuel (n + 1)

/-- `RedisClient.get(key)`: `None` without a connected client, otherwise the
wrapped lookup under retry. -/
def redisGet (cl : RedisClient) (att : Nat → AttemptResult) (key : String) :
    Option String :=
  match cl.client with
  | none => none
  | some store => retryRun att (storeLookup store key) none maxRetries 0

/-- `RedisClient.set(key, value, ex)`: `False` without a connected client;
otherwise `True` plus the store update when an attempt succeeds, and `False`
with the store untouched when every attempt fails (a failed attempt performs
no write). -/
def redisSet (cl : RedisClient) (att : Nat → AttemptResult) (key value : String)
    (ex : Option Nat) : Bool × RedisClient :=
  match cl.client with
  | none => (false, cl)
  | some store =>
    if retryRun att true false maxRetries 0 then
      (true, { client := some (storeSet store key value ex) })
    else (false, cl)

/-- C8: (round trip) with a connected store and succeeding attempts,
`set(key, value, ttl)` returns success and an immediate `get(key)` returns
that value; (fail open) with no connected client, `get` returns `None` and
`set` returns `False`; and when every retry attempt of an operation fails,
`get` returns `None` and `set` returns `False` — in the embedding both are
total functions, so no exception reaches the caller. -/
theorem cache_round_trip_fail_open :
    (∀ (store : RedisStore) (attS attG : Nat → AttemptResult)
        (key value : String) (ex : Option Nat),
      (∀ n, attS n = AttemptResult.success) →
      (∀ n, attG n = AttemptResult.success) →
      (redisSet { client := some store } attS key value ex).1 = true ∧
      redisGet (redisSet { client := some store } attS key value ex).2 attG key =
        some value) ∧
    (∀ (att : Nat → AttemptResult) (key value : String) (ex : Option Nat),
      redisGet { client := none } att key = none ∧
      (redisSet { client := none } att key value ex).1 = false) ∧
    (∀ (store : RedisStore) (att : Nat → AttemptResult) (key value : String)
        (ex : Option Nat),
      (∀ n, att n ≠ AttemptResult.success) →
      redisGet { client := some store } att key = none ∧
      (redisSet { client := some store } att key value ex).1 = false) := by
  refine ⟨?_, ?_, ?_⟩
  · intro store attS attG key value ex hS hG
    simp [redisSet, redisGet, retryRun, maxRetries, hS 0, hG 0, storeSet, storeLookup]
  · intro att key value ex
    exact ⟨rfl, rfl⟩
  · intro store att key value ex h
    have h0 := h 0
    have h1 := h 1
    have h2 := h 2
    cases hA0 : att 0 <;> cases hA1 : att 1 <;> cases hA2 : att 2 <;>
      simp_all [redisGet, redisSet, retryRun, maxRetries]

/-- Witness for C8: a concrete round trip plus a concrete all-attempts-fail
run. -/
theorem cache_round_trip_fail_open_witness :
    ((redisSet { client := some [] } (fun _ => AttemptResult.success) "k" "v"
        (some 60)).1 = true ∧
      redisGet (redisSet { client := some [] } (fun _ => AttemptResult.success)
        "k" "v" (some 60)).2 (fun _ => AttemptResult.success) "k" = some "v") ∧
    (redisGet { client := some [] } (fun _ => AttemptResult.connError) "k" = none ∧
      (redisSet { client := some [] } (fun _ => AttemptResult.connError) "k" "v"
        (some 60)).1 = false) :=
  ⟨cache_round_trip_fail_open.1 [] (fun _ => AttemptResult.success)
      (fun _ => AttemptResult.success) "k" "v" (some 60)
      (fun _ => rfl) (fun _ => rfl),
    cache_round_trip_fail_open.2.2 [] (fun _ => AttemptResult.connError)
      "k" "v" (some 60) (fun _ h => AttemptResult.noConfusion h)⟩

/-! ## Claim C5 — video connector bounded polling
(src/apps/api/src/connectors/tiktok_connector.py) -/

/-- One raw item of the Apify dataset (`raw_results` entries, read with
`.get`). -/
structure RawTikTokItem where
  text : Option String := none
  webVideoUrl : Option String := none
  authorName : Option String := none
  playCount : Option Nat := none
  diggCount : Option Nat := none
  commentCount : Option Nat := none
  createTime : Option Nat := none
  hashtags : Option (List String) := none
deriving DecidableEq, Repr

/-- One formatted record of the connector's output. -/
structure TikTokRecord where
  title : String
  content : String
  url : String
  author : String
  views : Nat
  likes : Nat
  comments : Nat
  created_utc : String
  hashtags : List String
deriving DecidableEq, Repr

/-- `_format_tiktok_results`: first ten items, formatted.  `fromTs` renders
`datetime.fromtimestamp(t).isoformat()`, `now` renders
`datetime.now().isoformat()`; a missing or zero `createTime` is falsy in
Python and selects `now`. -/
def formatTiktokResults (fromTs : Nat → String) (now : String)
    (rawResults : List RawTikTokItem) : List TikTokRecord :=
  (rawResults.take 10).map (fun item =>
    { title := pyTake (item.text.getD "") 100
      content := item.text.getD ""
      url := item.webVideoUrl.getD ""
      author := item.authorName.getD ""
      views := item.playCount.getD 0
      likes := item.diggCount.getD 0
      comments := item.commentCount.getD 0
      created_utc :=
        match item.createTime with
        | some t => if t = 0 then now else fromTs t
        | none => now
      hashtags := item.hashtags.getD [] })

/-- `_get_fallback_data(query)` — the static fallback record set (`now`
renders `datetime.now().isoformat()`). -/
def fallbackData (query : String) (now : String) : List TikTokRecord :=
  [{ title := "TikTok Financial Analysis: " ++ query
     content := "TikTok creators are discussing " ++ query ++
       " with mixed opinions. Some highlight growth potential while others warn about risks. Popular hashtags include #investing and #finance."
     url := "https://www.tiktok.com/search?q=" ++ pyReplace query " " "%20"
     author := "FinanceInfluencer"
     views := 125000
     likes := 8900
     comments := 234
     created_utc := now
     hashtags := ["#finance", "#investing", "#" ++ pyLower (pyReplace query " " "")] },
   { title := query ++ " Investment Strategy on TikTok"
     content := "Social media sentiment around " ++ query ++
       " shows retail investors are actively discussing the stock. Key concerns include valuation and market conditions."
     url := "https://www.tiktok.com/search?q=" ++ pyReplace query " " "%20" ++ "%20stock"
     author := "StockAnalyst"
     views := 89000
     likes := 5600
     comments := 189
     created_utc := now
     hashtags := ["#stocks", "#analysis", "#" ++ pyLower (pyReplace query " " "")] }]

/-- Modelled HTTP response of one status poll (`GET /actor-runs/{run_id}`);
a transport exception is an `Except.error` from the oracle. -/
structure PollResponse where
  httpStatus : Nat
  jobStatus : String
deriving DecidableEq, Repr

/-- Modelled HTTP response of the dataset fetch
(`GET /actor-runs/{run_id}/dataset/items`). -/
structure ResultsResponse where
  httpStatus : Nat
  items : List RawTikTokItem
deriving DecidableEq, Repr

/-- Outcome of `_wait_for_results`: the returned records plus the number of
status checks the loop performed. -/
structure WaitOutcome where
  records : List TikTokRecord
  checks : Nat
deriving DecidableEq, Repr

/-- The polling loop of `_wait_for_results` (`for _ in range(timeout)`,
`timeout = 30`): each iteration awaits `asyncio.sleep(1)` and performs one
status check (`poll i`).  A 200/SUCCEEDED response fetches the dataset
(`getRes i`) and returns the formatted items when that fetch returns 200
(otherwise the loop just continues); 200/FAILED or 200/ABORTED breaks out of
the loop; any other response continues.  Both the break and loop exhaustion
(the timeout) return the empty list, and an exception from either awaited
call is caught by the surrounding handler, which also returns the empty
list. -/
def waitLoop (poll : Nat → Except String PollResponse)
    (getRes : Nat → Except String ResultsResponse)
    (fromTs : Nat → String) (now : String) : Nat → Nat → WaitOutcome
  | 0, i => { records := [], checks := i }
  | fuel + 1, i =>
    match poll i with
    | .error _ => { records := [], checks := i + 1 }
    | .ok p =>
      if p.httpStatus = 200 then
        if p.jobStatus = "SUCCEEDED" then
          match getRes i with
          | .error _ => { records := [], checks := i + 1 }
          | .ok rr =>
            if rr.httpStatus = 200 then
              { records := formatTiktokResults fromTs now rr.items, checks := i + 1 }
            else waitLoop poll getRes fromTs now fuel (i + 1)
        else if p.jobStatus = "FAILED" ∨ p.jobStatus = "ABORTED" then
          { records := [], checks := i + 1 }
        else waitLoop poll getRes fromTs now fuel (i + 1)
      else waitLoop poll getRes fromTs now fuel (i + 1)

/-- `TikTokConnector._wait_for_results(session, run_id, headers, timeout)`. -/
def waitForResults (poll : Nat → Except String PollResponse)
    (getRes : Nat → Except String ResultsResponse)
    (fromTs : Nat → String) (now : String) (timeout : Nat := 30) : WaitOutcome :=
  waitLoop poll getRes fromTs now timeout 0

/-- `TikTokConnector.search_content`: without an `APIFY_TOKEN`, or when the
job submission does not answer HTTP 201, or when an exception escapes, the
static fallback records are returned; on a 201 the connector polls via
`_wait_for_results` and returns whatever that returns — including the empty
list. -/
def searchContent (apifyToken : Option String) (submitStatus : Nat)
    (poll : Nat → Except String PollResponse)
    (getRes : Nat → Except String ResultsResponse)
    (fromTs : Nat → String) (query now : String) : List TikTokRecord :=
  match apifyToken with
  | none => fallbackData query now
  | some _ =>
    if submitStatus = 201 then
      (waitForResults poll getRes fromTs now 30).records
    else fallbackData query now

/-- The status check at index `i` lets the loop continue: non-200, a
non-terminal status other than SUCCEEDED, or SUCCEEDED whose dataset fetch
answers non-200. -/
def pollContinues (poll : Nat → Except String PollResponse)
    (getRes : Nat → Except String ResultsResponse) (i : Nat) : Prop :=
  ∃ p, poll i = .ok p ∧
    (p.httpStatus ≠ 200 ∨
     (p.httpStatus = 200 ∧ p.jobStatus ≠ "SUCCEEDED" ∧ p.jobStatus ≠ "FAILED" ∧
       p.jobStatus ≠ "ABORTED") ∨
     (p.httpStatus = 200 ∧ p.jobStatus = "SUCCEEDED" ∧
       ∃ rr, getRes i = .ok rr ∧ rr.httpStatus ≠ 200))

/-- The job reports a terminal failure at check `i`. -/
def pollTerminalFailure (poll : Nat → Except String PollResponse) (i : Nat) : Prop :=
  ∃ p, poll i = .ok p ∧ p.httpStatus = 200 ∧
    (p.jobStatus = "FAILED" ∨ p.jobStatus = "ABORTED")

/-- The loop performs at most `fuel` further status checks. -/
theorem waitLoop_checks_le (poll : Nat → Except String PollResponse)
    (getRes : Nat → Except String ResultsResponse)
    (fromTs : Nat → String) (now : String) :
    ∀ fuel i, (waitLoop poll getRes fromTs now fuel i).checks ≤ i + fuel := by
  intro fuel
  induction fuel with
  | zero =>
    intro i
    show i ≤ i + 0
    omega
  | succ n ih =>
    intro i
    unfold waitLoop
    cases hp : poll i with
    | error e =>
      show i + 1 ≤ i + (n + 1)
      omega
    | ok p =>
      dsimp only
      by_cases h200 : p.httpStatus = 200
      · rw [if_pos h200]
        by_cases hsucc : p.jobStatus = "SUCCEEDED"
        · rw [if_pos hsucc]
          cases hr : getRes i with
          | error e =>
            show i + 1 ≤ i + (n + 1)
            omega
          | ok rr =>
            dsimp only
            by_cases hrs : rr.httpStatus = 200
            · rw [if_pos hrs]
              show i + 1 ≤ i + (n + 1)
              omega
            · rw [if_neg hrs]
              have := ih (i + 1)
              omega
        · rw [if_neg hsucc]
          by_cases hterm : p.jobStatus = "FAILED" ∨ p.jobStatus = "ABORTED"
          · rw [if_pos hterm]
            show i + 1 ≤ i + (n + 1)
            omega
          · rw [if_neg hterm]
            have := ih (i + 1)
            omega
      · rw [if_neg h200]
        have := ih (i + 1)
        omega

/-- A run of continuing checks exhausts the budget and returns the empty
list. -/
theorem waitLoop_continues_run (poll : Nat → Except String PollResponse)
    (getRes : Nat → Except String ResultsResponse)
    (fromTs : Nat → String) (now : String) :
    ∀ fuel i, (∀ j, i ≤ j → j < i + fuel → pollContinues poll getRes j) →
      waitLoop poll getRes fromTs now fuel i =
        { records := [], checks := i + fuel } := by
  intro fuel
  induction fuel with
  | zero =>
    intro i _
    show ({ records := [], checks := i } : WaitOutcome) = _
    congr 1
  | succ n ih =>
    intro i h
    obtain ⟨p, hp, hcase⟩ := h i (Nat.le_refl i) (by omega)
    have hstep : waitLoop poll getRes fromTs now n (i + 1) =
        { records := [], checks := (i + 1) + n } :=
      ih (i + 1) (fun j hj1 hj2 => h j (by omega) (by omega))
    unfold waitLoop
    rw [hp]
    dsimp only
    rcases hcase with hne | ⟨h200, hns, hnf, hna⟩ | ⟨h200, hs, rr, hrr, hrs⟩
    · rw [if_neg hne, hstep]
      congr 1
      omega
    · rw [if_pos h200, if_neg hns, if_neg (by simp [hnf, hna]), hstep]
      congr 1
      omega
    · rw [if_pos h200, if_pos hs, hrr]
      dsimp only
      rw [if_neg hrs, hstep]
      congr 1
      omega

/-- A terminal FAILED/ABORTED report after a run of continuing checks stops
the loop at that check and returns the empty list. -/
theorem waitLoop_terminal (poll : Nat → Except String PollResponse)
    (getRes : Nat → Except String ResultsResponse)
    (fromTs : Nat → String) (now : String) :
    ∀ fuel i k, i ≤ k → k < i + fuel →
      (∀ j, i ≤ j → j < k → pollContinues poll getRes j) →
      pollTerminalFailure poll k →
      waitLoop poll getRes fromTs now fuel i =
        { records := [], checks := k + 1 } := by
  intro fuel
  induction fuel with
  | zero =>
    intro i k h1 h2 _ _
    omega
  | succ n ih =>
    intro i k hik hk h hterm
    by_cases heq : i = k
    · subst heq
      obtain ⟨p, hp, h200, hfail⟩ := hterm
      have hns : p.jobStatus ≠ "SUCCEEDED" := by
        rcases hfail with hf | hf <;> rw [hf] <;> decide
      unfold waitLoop
      rw [hp]
      dsimp only
      rw [if_pos h200, if_neg hns, if_pos hfail]
    · obtain ⟨p, hp, hcase⟩ := h i (Nat.le_refl i) (by omega)
      have hnext := ih (i + 1) k (by omega) (by omega)
        (fun j hj1 hj2 => h j (by omega) hj2) hterm
      unfold waitLoop
      rw [hp]
      dsimp only
      rcases hcase with hne | ⟨h200, hns, hnf, hna⟩ | ⟨h200, hs, rr, hrr, hrs⟩
      · rw [if_neg hne, hnext]
      · rw [if_pos h200, if_neg hns, if_neg (by simp [hnf, hna]), hnext]
      · rw [if_pos h200, if_pos hs, hrr]
        dsimp only
        rw [if_neg hrs, hnext]

/-- C5 counterexample: with a token present, a successful job submission
(HTTP 201), and a job that reports FAILED on the very first status check, the
connector returns the *empty* record list, not the (non-empty) static
fallback set the claim promises for terminal failures. -/
theorem video_polling_fallback_cex :
    searchContent (some "t") 201
        (fun _ => .ok { httpStatus := 200, jobStatus := "FAILED" })
        (fun _ => .error "unused") (fun _ => "ts") "apple" "tnow" = [] ∧
      fallbackData "apple" "tnow" ≠ [] := by
  constructor
  · rfl
  · decide

/-- C5 (amended): the polling loop performs at most 30 status checks (each
preceded by a 1-second sleep, bounding the wait), and on a terminal
FAILED/ABORTED report or on budget expiry it stops polling and returns the
*empty record list* — not the static fallback set, which `search_content`
reserves for a missing API token, a failed job submission, or an escaped
exception — rather than blocking indefinitely or raising. -/
theorem video_polling_bounded (tok query now : String)
    (poll : Nat → Except String PollResponse)
    (getRes : Nat → Except String ResultsResponse) (fromTs : Nat → String) :
    ((waitForResults poll getRes fromTs now 30).checks ≤ 30) ∧
    (∀ k, k < 30 → (∀ j, j < k → pollContinues poll getRes j) →
      pollTerminalFailure poll k →
      waitForResults poll getRes fromTs now 30 = { records := [], checks := k + 1 } ∧
      searchContent (some tok) 201 poll getRes fromTs query now = []) ∧
    ((∀ j, j < 30 → pollContinues poll getRes j) →
      waitForResults poll getRes fromTs now 30 = { records := [], checks := 30 } ∧
      searchContent (some tok) 201 poll getRes fromTs query now = []) ∧
    (searchContent none 201 poll getRes fromTs query now = fallbackData query now) ∧
    (∀ submitStatus, submitStatus ≠ 201 →
      searchContent (some tok) submitStatus poll getRes fromTs query now =
        fallbackData query now) := by
  refine ⟨?_, ?_, ?_, rfl, ?_⟩
  · simpa using waitLoop_checks_le poll getRes fromTs now 30 0
  · intro k hk hcont hterm
    have hw := waitLoop_terminal poll getRes fromTs now 30 0 k (by omega) (by omega)
      (fun j _ hj => hcont j hj) hterm
    refine ⟨hw, ?_⟩
    simp [searchContent, waitForResults, hw]
  · intro hcont
    have hw := waitLoop_continues_run poll getRes fromTs now 30 0
      (fun j _ hj => hcont j (by omega))
    refine ⟨by simpa using hw, ?_⟩
    simp [searchContent, waitForResults, hw]
  · intro submitStatus hst
    simp [searchContent, hst]

/-- Witness for C5's amended theorem: terminal failure on the first check
stops after one poll with the empty list. -/
theorem video_polling_bounded_witness :
    waitForResults (fun _ => .ok { httpStatus := 200, jobStatus := "FAILED" })
        (fun _ => .error "unused") (fun _ => "ts") "tnow" 30 =
      { records := [], checks := 1 } ∧
    searchContent (some "t") 201
        (fun _ => .ok { httpStatus := 200, jobStatus := "FAILED" })
        (fun _ => .error "unused") (fun _ => "ts") "apple" "tnow" = [] :=
  (video_polling_bounded "t" "apple" "tnow"
      (fun _ => .ok { httpStatus := 200, jobStatus := "FAILED" })
      (fun _ => .error "unused") (fun _ => "ts")).2.1 0 (by omega)
    (fun j hj => absurd hj (Nat.not_lt_zero j))
    ⟨{ httpStatus := 200, jobStatus := "FAILED" }, rfl, rfl, Or.inl rfl⟩
